import Mathlib

/-!
Shallow embedding of the `GameClient` connection manager of the game-mcp
repository (src/game-client.ts together with the protocol shapes of
src/types/game.ts).  JavaScript objects are modelled as Lean structures,
JSON values as an inductive `Json`, the zod schemas as decode functions,
and the event-driven parts of the client (promise settlement, timer
cancellation, socket dials, process launches) as explicit effect / trace
lists produced next to the updated client state.
-/

namespace GameMcp

/-- A JSON value as produced by `JSON.parse`.  `num` is restricted to
integers; none of the claims depend on fractional numerics. -/
inductive Json where
  | null : Json
  | bool (b : Bool) : Json
  | num (n : Int) : Json
  | str (s : String) : Json
  | arr (xs : List Json) : Json
  | obj (fields : List (String × Json)) : Json

/-- JavaScript truthiness of a JSON value (`null`, `false`, `0` and `""`
are falsy; objects and arrays are always truthy). -/
def Json.truthy : Json → Bool
  | .null => false
  | .bool b => b
  | .num n => n != 0
  | .str s => s != ""
  | .arr _ => true
  | .obj _ => true

/-- Field lookup on a parsed JSON object, first occurrence wins. -/
def getField (fields : List (String × Json)) (k : String) : Option Json :=
  (fields.find? (fun p => p.1 == k)).map (fun p => p.2)

/-- `z.string()` on a JSON value. -/
def Json.asStr : Json → Option String
  | .str s => some s
  | _ => none

/-- `z.boolean()` on a JSON value. -/
def Json.asBool : Json → Option Bool
  | .bool b => some b
  | _ => none

/-- `z.string().optional()`: an absent field decodes to `none`; a present
field must be a string. -/
def decodeOptStr (o : Option Json) : Option (Option String) :=
  match o with
  | none => some none
  | some j => (j.asStr).map some

/-- `z.boolean().optional()`. -/
def decodeOptBool (o : Option Json) : Option (Option Bool) :=
  match o with
  | none => some none
  | some j => (j.asBool).map some

/-- The response record received over TCP, after `GameResponseSchema`
(src/types/game.ts): `{id: string, success: boolean, data?: unknown,
image?: string, error?: string}`. -/
structure GameResponse where
  id : String
  success : Bool
  data : Option Json := none
  image : Option String := none
  error : Option String := none

/-- `GameResponseSchema.parse` (zod): required `id : string` and
`success : boolean`; `data` is `unknown` and kept verbatim when present;
`image` and `error` must be strings when present.  Any failure is a
thrown `ZodError`, modelled as `none`. -/
def decodeGameResponse : Json → Option GameResponse
  | .obj fs => do
    let id ← (getField fs "id").bind Json.asStr
    let success ← (getField fs "success").bind Json.asBool
    let image ← decodeOptStr (getField fs "image")
    let error ← decodeOptStr (getField fs "error")
    pure { id := id, success := success, data := getField fs "data",
           image := image, error := error }
  | _ => none

/-- An argument descriptor from `CommandArgSchema`:
`{type: string, optional?: boolean, description?: string}`. -/
structure CommandArg where
  type : String
  optional : Option Bool := none
  description : Option String := none
deriving DecidableEq, Repr

/-- `CommandArgSchema.parse`. -/
def decodeCommandArg : Json → Option CommandArg
  | .obj fs => do
    let type ← (getField fs "type").bind Json.asStr
    let optional ← decodeOptBool (getField fs "optional")
    let description ← decodeOptStr (getField fs "description")
    pure { type := type, optional := optional, description := description }
  | _ => none

/-- A command descriptor from `CommandInfoSchema`:
`{name: string, description: string, args?: record of CommandArg}`.
The `z.record` is modelled as an association list. -/
structure CommandInfo where
  name : String
  description : String
  args : Option (List (String × CommandArg)) := none
deriving DecidableEq, Repr

/-- `z.record(CommandArgSchema)`: every field value must decode. -/
def decodeArgRecord (fs : List (String × Json)) :
    Option (List (String × CommandArg)) :=
  fs.mapM (fun p => (decodeCommandArg p.2).map (fun a => (p.1, a)))

/-- `CommandInfoSchema.parse`. -/
def decodeCommandInfo : Json → Option CommandInfo
  | .obj fs => do
    let name ← (getField fs "name").bind Json.asStr
    let description ← (getField fs "description").bind Json.asStr
    let args ←
      match getField fs "args" with
      | none => some none
      | some (.obj afs) => (decodeArgRecord afs).map some
      | some _ => none
    pure { name := name, description := description, args := args }
  | _ => none

/-- `ListCommandsResponseSchema.safeParse` applied to the `data` payload:
`{commands: CommandInfo[]}`. -/
def decodeListCommands : Json → Option (List CommandInfo)
  | .obj fs => do
    let cj ← getField fs "commands"
    match cj with
    | .arr xs => xs.mapM decodeCommandInfo
    | _ => none
  | _ => none

/-- The configuration record (src/types/game.ts `Config`), with the
numeric fields as naturals (milliseconds / port number). -/
structure Config where
  projectPath : Option String := none
  port : Nat := 6789
  godotPath : String := "godot"
  connectTimeoutMs : Nat := 5000
  commandTimeoutMs : Nat := 10000
deriving DecidableEq, Repr

/-- `ConnectionState` (src/types/game.ts). -/
inductive ConnectionState where
  | disconnected
  | connecting
  | connected
deriving DecidableEq, Repr

/-- The mutable fields of a `GameClient` instance.  `socket` and
`gameProcess` record whether the corresponding handle is non-null;
`pending` lists the correlation identifiers currently in the
`pendingRequests` map, in insertion order. -/
structure ClientState where
  socket : Bool := false
  state : ConnectionState := .disconnected
  buffer : String := ""
  pending : List String := []
  gameProcess : Bool := false
  availableCommands : List CommandInfo := []
deriving DecidableEq, Repr

/-- `GameClient.isConnected`. -/
def isConnected (st : ClientState) : Bool :=
  st.state == .connected && st.socket

/-- How a `sendCommand` promise settles: `resolved` for a call to the
stored `resolve` callback (an ordinary result value for the awaiter),
`rejected` for a call to `reject` (an `Error` thrown to the awaiter). -/
inductive Outcome where
  | resolved (r : GameResponse)
  | rejected (msg : String)

/-- Observable side effects of the event handlers: settling a pending
request's promise, a `clearTimeout` on its timer, or a console log. -/
inductive Effect where
  | settle (id : String) (o : Outcome)
  | clearTimer (id : String)
  | log (msg : String)

/-- Observable external actions of `connect`: a socket dial to a port, a
game launch, a `killGame`, and a backoff sleep. -/
inductive TraceEv where
  | dial (port : Nat)
  | launch (projectPath : String)
  | kill
  | sleep (ms : Nat)
deriving DecidableEq, Repr

/-- JavaScript `a || b` for an optional number versus a configured
default: `undefined` and `0` are falsy and select the default. -/
def jsOrNat (a : Option Nat) (b : Nat) : Nat :=
  match a with
  | none => b
  | some n => if n = 0 then b else n

/-- JavaScript `a || b` for two optional strings (`options.projectPath ||
this.config.projectPath`): `undefined` and `""` are falsy. -/
def jsOrStr (a b : Option String) : Option String :=
  match a with
  | none => b
  | some s => if s = "" then b else some s

/-- JavaScript falsiness of the resolved project path (`!projectPath`). -/
def strOptFalsy (o : Option String) : Bool :=
  match o with
  | none => true
  | some s => s == ""

/-- `GameClient.handleMessage` (src/game-client.ts:238-252).  The input
is the result of `JSON.parse` on the line: `none` when the parse threw.
A `ZodError` from `GameResponseSchema.parse` is caught by the same
`try`/`catch` as a `JSON.parse` failure and only logged. -/
def handleMessage (st : ClientState) (parsed : Option Json) :
    ClientState × List Effect :=
  match parsed with
  | none => (st, [.log "Failed to parse message"])
  | some j =>
    match decodeGameResponse j with
    | none => (st, [.log "Failed to parse message"])
    | some response =>
      if st.pending.contains response.id then
        ({ st with pending := st.pending.erase response.id },
         [.clearTimer response.id, .settle response.id (.resolved response)])
      else
        (st, [])

/-- `GameClient.handleDisconnect` (src/game-client.ts:254-265): go to
`disconnected`, drop socket and buffer, and for every pending request
clear its timer and `reject` it with a connection-lost `Error`; finally
clear the table. -/
def handleDisconnect (st : ClientState) : ClientState × List Effect :=
  ({ st with state := .disconnected, socket := false, buffer := "",
             pending := [] },
   st.pending.flatMap (fun id =>
     [Effect.clearTimer id,
      Effect.settle id (.rejected "Connection lost during command execution")]))

/-- `GameClient.killGame` (src/game-client.ts:362-385) together with the
event-loop interleaving it triggers.  `socket.destroy()` queues a
`close` event.  When a game process is live, the awaited 500ms grace
sleep (line 372) yields to the event loop, so `handleDisconnect` runs —
cancelling every pending timer and rejecting every pending call — before
the final `pendingRequests.clear()` reaches an already-empty table.
With no live game process there is no suspension point between the
destroy and `clear()`: the pending entries are dropped synchronously
with their timers still armed and their promises unsettled (each timer
later fires and resolves its call with a timeout failure), and the late
`close` handler then finds an empty table and settles nothing.  The
resulting client state is the same either way. -/
def killGame (st : ClientState) : ClientState × List Effect :=
  ({ st with socket := false, gameProcess := false,
             state := .disconnected, buffer := "", pending := [] },
   if st.socket && st.gameProcess then (handleDisconnect st).2 else [])

/-- The `setTimeout` handler registered by `sendCommand`
(src/game-client.ts:306-313): delete the entry and resolve with a
timeout failure built from the call's timeout value. -/
def onCommandTimeout (st : ClientState) (id : String) (timeout : Nat) :
    ClientState × List Effect :=
  ({ st with pending := st.pending.erase id },
   [.settle id (.resolved
      { id := id, success := false,
        error := some ("Command timeout after " ++ toString timeout ++ "ms") })])

/-- The write-failure callback of `sendCommand`
(src/game-client.ts:318-328): clear the timer, delete the entry, resolve
with a send failure. -/
def onWriteError (st : ClientState) (id : String) (errMsg : String) :
    ClientState × List Effect :=
  ({ st with pending := st.pending.erase id },
   [.clearTimer id,
    .settle id (.resolved
      { id := id, success := false,
        error := some ("Failed to send command: " ++ errMsg) })])

/-- What the synchronous prefix of `sendCommand` does: either return an
immediate not-connected failure, or register a pending entry with its
timer and issue the socket write. -/
inductive SendStart where
  | immediate (r : GameResponse)
  | registered (id : String) (timeout : Nat)

/-- `GameClient.sendCommand`, synchronous prefix
(src/game-client.ts:288-315).  `id` stands for the fresh `randomUUID()`.
If `!this.isConnected() || !this.socket`, an immediate failure response
is returned and nothing is registered; otherwise the timeout is resolved
against the configured default, the entry is registered. -/
def sendCommandStart (cfg : Config) (st : ClientState) (id : String)
    (timeoutMs : Option Nat) : ClientState × SendStart :=
  if !(isConnected st) || !st.socket then
    (st, .immediate
      { id := "", success := false,
        error := some "Not connected. Call game_connect first." })
  else
    let timeout := jsOrNat timeoutMs cfg.commandTimeoutMs
    ({ st with pending := st.pending ++ [id] }, .registered id timeout)

/-- `GameClient.fetchCommands` (src/game-client.ts:267-281), with
`remote` the response that the target process would deliver for the
`list_commands` request if one were actually written.  Faithfully to the
source, the inner `sendCommand` first checks `isConnected`; when that
guard fails the not-connected failure response is used instead of any
remote reply.  `response.success && response.data` uses JavaScript
truthiness on `data`; a failed `safeParse` yields `[]`. -/
def fetchCommands (st : ClientState) (remote : GameResponse) :
    List CommandInfo :=
  let response : GameResponse :=
    if !(isConnected st) || !st.socket then
      { id := "", success := false,
        error := some "Not connected. Call game_connect first." }
    else remote
  if response.success &&
      (match response.data with
       | some d => d.truthy
       | none => false) then
    match response.data with
    | some d => (decodeListCommands d).getD []
    | none => []
  else []

/-- The outcome of one `tryConnect` dial attempt; `refused` carries the
`ECONNREFUSED` error's message, `otherError` any other dial error's. -/
inductive DialResult where
  | ok
  | refused (msg : String)
  | otherError (msg : String)
deriving DecidableEq, Repr

/-- One iteration of the connect retry loop as seen from outside:
`elapsedCheck` is `Date.now() - startTime` sampled at the `while` guard,
`elapsedRetry` the re-sample inside the refusal branch (line 168), and
`dial` the outcome of `tryConnect`. -/
structure IterEnv where
  elapsedCheck : Nat
  elapsedRetry : Nat
  dial : DialResult
deriving DecidableEq, Repr

/-- The backoff wait of the connect loop (src/game-client.ts:169):
`Math.min(100 * Math.pow(2, Math.floor(elapsed / 1000)), 1000)`. -/
def backoffWait (elapsed : Nat) : Nat :=
  min (100 * 2 ^ (elapsed / 1000)) 1000

/-- `lastError?.message || "Connection timeout after <timeoutMs>ms"`
(src/game-client.ts:181). -/
def lastErrorOrTimeout (lastError : Option String) (timeoutMs : Nat) :
    String :=
  match lastError with
  | none => "Connection timeout after " ++ toString timeoutMs ++ "ms"
  | some m => if m = "" then "Connection timeout after " ++ toString timeoutMs ++ "ms" else m

/-- The result record of `connect`. -/
structure ConnectResult where
  connected : Bool
  commands : Option (List CommandInfo) := none
  error : Option String := none
deriving DecidableEq, Repr

/-- The retry loop of `GameClient.connect` (src/game-client.ts:139-183),
driven by the per-iteration environment list.  An exhausted list plays
the role of the wall clock passing `timeoutMs` at the next guard check.
`launchOk`/`launchErrMsg` give the outcome `launchGame` would have,
`remote` the reply the target process would give to `list_commands`. -/
def connectLoop (st : ClientState) (remote : GameResponse)
    (launchOk : Bool) (launchErrMsg : String) (projectPath : String)
    (port timeoutMs : Nat) :
    List IterEnv → Option String → ClientState × ConnectResult × List TraceEv
  | [], lastError =>
    ({ st with state := .disconnected },
     { connected := false,
       error := some (lastErrorOrTimeout lastError timeoutMs) },
     [])
  | it :: rest, lastError =>
    if it.elapsedCheck < timeoutMs then
      match it.dial with
      | .ok =>
        -- tryConnect succeeded: this.socket is set, then fetchCommands
        -- runs while this.state is still "connecting".
        let st1 := { st with socket := true }
        let commands := fetchCommands st1 remote
        let st2 := { st1 with availableCommands := commands,
                              state := .connected }
        (st2, { connected := true, commands := some commands },
         [.dial port])
      | .refused msg =>
        if !st.gameProcess then
          if launchOk then
            let out := connectLoop { st with gameProcess := true } remote
              launchOk launchErrMsg projectPath port timeoutMs rest (some msg)
            (out.1, out.2.1,
             .dial port :: .launch projectPath ::
               .sleep (backoffWait it.elapsedRetry) :: out.2.2)
          else
            -- launch failed: return inside the loop, state stays
            -- "connecting" (the source does not reset it here).
            (st, { connected := false,
                   error := some ("Failed to launch game: " ++ launchErrMsg) },
             [.dial port, .launch projectPath])
        else
          let out := connectLoop st remote launchOk launchErrMsg
            projectPath port timeoutMs rest (some msg)
          (out.1, out.2.1,
           .dial port :: .sleep (backoffWait it.elapsedRetry) :: out.2.2)
      | .otherError msg =>
        -- non-refusal error: break out of the loop.
        ({ st with state := .disconnected },
         { connected := false,
           error := some (lastErrorOrTimeout (some msg) timeoutMs) },
         [.dial port])
    else
      ({ st with state := .disconnected },
       { connected := false,
         error := some (lastErrorOrTimeout lastError timeoutMs) },
       [])

/-- The options record of `connect`. -/
structure ConnectOptions where
  projectPath : Option String := none
  restart : Bool := false
  port : Option Nat := none
  timeoutMs : Option Nat := none
deriving DecidableEq, Repr

/-- The environment a whole `connect` call runs against. -/
structure ConnectEnv where
  iters : List IterEnv := []
  launchOk : Bool := true
  launchErrMsg : String := ""
  remote : GameResponse := { id := "", success := false }

/-- `GameClient.connect` after the project-path guard
(src/game-client.ts:120-183): optional restart teardown, idempotency
check, then the retry loop. -/
def connectAfterPathCheck (cfg : Config) (st : ClientState)
    (options : ConnectOptions) (env : ConnectEnv)
    (projectPath : String) :
    ClientState × ConnectResult × List TraceEv :=
  let port := jsOrNat options.port cfg.port
  let timeoutMs := jsOrNat options.timeoutMs cfg.connectTimeoutMs
  let st1 := if options.restart then (killGame st).1 else st
  let killTr : List TraceEv := if options.restart then [.kill] else []
  if isConnected st1 then
    (st1, { connected := true, commands := some st1.availableCommands },
     killTr)
  else
    let out := connectLoop { st1 with state := .connecting } env.remote
      env.launchOk env.launchErrMsg projectPath port timeoutMs env.iters none
    (out.1, out.2.1, killTr ++ out.2.2)

/-- `GameClient.connect` (src/game-client.ts:103-183).  Resolves the
options against the configuration with JavaScript `||`, fails early when
no project path is resolvable, and otherwise proceeds as
`connectAfterPathCheck`. -/
def connect (cfg : Config) (st : ClientState) (options : ConnectOptions)
    (env : ConnectEnv) : ClientState × ConnectResult × List TraceEv :=
  let projectPath := jsOrStr options.projectPath cfg.projectPath
  if strOptFalsy projectPath then
    (st, { connected := false,
           error := some ("No project path specified. " ++
             "Set GAME_PROJECT_PATH or provide project_path parameter.") },
     [])
  else
    connectAfterPathCheck cfg st options env (projectPath.getD "")

/-- C7: a `sendCommand` call made while not connected returns an
immediate failure response (rather than throwing) with the
"Not connected" message, leaves the client state — in particular the
pending table — unchanged, and registers nothing. -/
theorem sendCommand_not_connected (cfg : Config) (st : ClientState)
    (id : String) (timeoutMs : Option Nat)
    (h : isConnected st = false) :
    sendCommandStart cfg st id timeoutMs =
      (st, .immediate
        { id := "", success := false,
          error := some "Not connected. Call game_connect first." }) := by
  simp [sendCommandStart, h]

theorem sendCommand_not_connected_witness :
    isConnected { } = false ∧
    sendCommandStart { } { } "u1" none =
      ({ }, .immediate
        { id := "", success := false,
          error := some "Not connected. Call game_connect first." }) :=
  ⟨rfl, sendCommand_not_connected { } { } "u1" none rfl⟩

/-- C6: when the timer of a still-pending `sendCommand` call fires, the
call resolves with a failure response whose error is
`"Command timeout after <timeout>ms"`, the entry leaves the pending
table, and no new entry is registered (the request is not retried). -/
theorem sendCommand_timeout_resolution (st : ClientState) (id : String)
    (timeout : Nat) (hmem : id ∈ st.pending) (hnd : st.pending.Nodup) :
    onCommandTimeout st id timeout =
      ({ st with pending := st.pending.erase id },
       [.settle id (.resolved
          { id := id, success := false,
            error := some ("Command timeout after " ++ toString timeout ++ "ms") })]) ∧
    id ∉ (onCommandTimeout st id timeout).1.pending ∧
    (onCommandTimeout st id timeout).1.pending.length + 1 =
      st.pending.length := by
  refine ⟨rfl, ?_, ?_⟩
  · show id ∉ st.pending.erase id
    simp [hnd.mem_erase_iff]
  · show (st.pending.erase id).length + 1 = st.pending.length
    rw [List.length_erase_of_mem hmem]
    exact Nat.succ_pred_eq_of_pos (List.length_pos.mpr
      (List.ne_nil_of_mem hmem))

theorem sendCommand_timeout_resolution_witness :
    "r1" ∈ ([ "r1" ] : List String) ∧
    (onCommandTimeout { pending := ["r1"] } "r1" 10000).2 =
      [.settle "r1" (.resolved
        { id := "r1", success := false,
          error := some "Command timeout after 10000ms" })] := by
  refine ⟨by simp, ?_⟩
  have h := sendCommand_timeout_resolution { pending := ["r1"] } "r1" 10000
    (by simp) (by simp)
  rw [h.1]
  rfl

/-- C8: the backoff wait of the connect retry loop is exactly
`min (100 * 2 ^ (elapsed / 1000)) 1000` milliseconds, is monotone
(non-strictly) in the elapsed time — hence across consecutive retries —
and never exceeds 1000ms. -/
theorem backoff_monotone_capped (e1 e2 : Nat) (h : e1 ≤ e2) :
    backoffWait e1 = min (100 * 2 ^ (e1 / 1000)) 1000 ∧
    backoffWait e1 ≤ backoffWait e2 ∧
    backoffWait e2 ≤ 1000 := by
  refine ⟨rfl, ?_, min_le_right _ _⟩
  exact min_le_min
    (Nat.mul_le_mul_left _
      (Nat.pow_le_pow_right (by norm_num) (Nat.div_le_div_right h)))
    le_rfl

theorem backoff_monotone_capped_witness :
    (500 : Nat) ≤ 1500 ∧
    (backoffWait 500 = min (100 * 2 ^ (500 / 1000)) 1000 ∧
     backoffWait 500 ≤ backoffWait 1500 ∧
     backoffWait 1500 ≤ 1000) :=
  ⟨by norm_num, backoff_monotone_capped 500 1500 (by norm_num)⟩

/-- C10: falsy option values select the configured defaults: a `connect`
call with `port = 0`, `timeoutMs = 0` and `projectPath = ""` behaves
identically to one with those options absent, and a `sendCommand` call
with `timeoutMs = 0` behaves identically to one with no timeout given
(hence uses the configured default command timeout). -/
theorem falsy_options_use_defaults (cfg : Config) (st : ClientState)
    (env : ConnectEnv) (id : String) :
    connect cfg st
      { projectPath := some "", restart := false,
        port := some 0, timeoutMs := some 0 } env =
      connect cfg st { } env ∧
    sendCommandStart cfg st id (some 0) =
      sendCommandStart cfg st id none := by
  constructor
  · simp [connect, connectAfterPathCheck, jsOrNat, jsOrStr]
  · simp [sendCommandStart, jsOrNat]

/-- A connected client with two requests pending, used as a concrete
test state. -/
def stTwoPending : ClientState :=
  { socket := true, state := .connected, pending := ["a", "b"] }

/-- A connected client with one request pending and a live game
process, used as a concrete test state. -/
def stOnePending : ClientState :=
  { socket := true, state := .connected, pending := ["a"],
    gameProcess := true }

/-- C9: a received line that fails to parse as JSON, fails the response
schema, or decodes to an identifier with no pending entry, is dropped
without change: the client state (in particular every pending entry) is
left exactly as it was, and no pending promise is settled and no timer
is cancelled — handleMessage catches instead of throwing and at most
logs. -/
theorem handleMessage_drops_bad_lines (st : ClientState)
    (parsed : Option Json)
    (h : parsed = none ∨
         (∃ j, parsed = some j ∧ decodeGameResponse j = none) ∨
         (∃ j r, parsed = some j ∧ decodeGameResponse j = some r ∧
            r.id ∉ st.pending)) :
    (handleMessage st parsed).1 = st ∧
    (∀ e ∈ (handleMessage st parsed).2,
      (∀ id o, e ≠ .settle id o) ∧ (∀ id, e ≠ .clearTimer id)) := by
  rcases h with h | ⟨j, hj, hd⟩ | ⟨j, r, hj, hd, hp⟩
  · subst h
    exact ⟨rfl, by intro e he; simp [handleMessage] at he; simp [he]⟩
  · subst hj
    refine ⟨by simp [handleMessage, hd], ?_⟩
    intro e he
    simp [handleMessage, hd] at he
    simp [he]
  · subst hj
    refine ⟨by simp [handleMessage, hd, hp], ?_⟩
    intro e he
    simp [handleMessage, hd, hp] at he

theorem handleMessage_drops_bad_lines_witness :
    decodeGameResponse (Json.str "not a response") = none ∧
    (handleMessage stTwoPending (some (Json.str "not a response"))).1 =
      stTwoPending :=
  ⟨rfl,
   (handleMessage_drops_bad_lines stTwoPending
      (some (Json.str "not a response"))
      (Or.inr (Or.inl ⟨Json.str "not a response", rfl, rfl⟩))).1⟩

/-- C2 counterexample: with one request pending, a socket disconnect
settles that request by `reject` — an `Error` thrown to the awaiting
caller — and not by resolving with an ordinary success-flag-false
response, contradicting the claim that each pending call completes with
an ordinary failure result rather than a thrown exception. -/
theorem handleDisconnect_rejects_counterexample :
    (handleDisconnect stOnePending).2 =
      [.clearTimer "a",
       .settle "a" (.rejected "Connection lost during command execution")] ∧
    ¬ ∃ r : GameResponse,
        Effect.settle "a" (.resolved r) ∈ (handleDisconnect stOnePending).2 := by
  constructor
  · rfl
  · rintro ⟨r, hr⟩
    simp [handleDisconnect, stOnePending] at hr

/-- C2 amended: a socket close or error while requests are pending
settles every pending call — by promise rejection carrying the
connection-lost `Error` (which the outer adapter layer catches), not by
an ordinary resolved failure response — cancels each timer, and leaves
the pending table empty, the state `disconnected`, the socket and buffer
cleared. -/
theorem handleDisconnect_settles_all (st : ClientState) (id : String)
    (h : id ∈ st.pending) :
    (handleDisconnect st).1.pending = [] ∧
    (handleDisconnect st).1.state = .disconnected ∧
    (handleDisconnect st).1.socket = false ∧
    (handleDisconnect st).1.buffer = "" ∧
    Effect.clearTimer id ∈ (handleDisconnect st).2 ∧
    Effect.settle id
        (.rejected "Connection lost during command execution") ∈
      (handleDisconnect st).2 := by
  refine ⟨rfl, rfl, rfl, rfl, ?_, ?_⟩ <;>
    · show _ ∈ st.pending.flatMap _
      rw [List.mem_flatMap]
      exact ⟨id, h, by simp⟩

theorem handleDisconnect_settles_all_witness :
    "a" ∈ stTwoPending.pending ∧
    ((handleDisconnect stTwoPending).1.pending = [] ∧
     Effect.settle "a"
         (.rejected "Connection lost during command execution") ∈
       (handleDisconnect stTwoPending).2) := by
  have h := handleDisconnect_settles_all stTwoPending "a"
    (by simp [stTwoPending])
  exact ⟨by simp [stTwoPending], h.1, h.2.2.2.2.2⟩

/-- A connected client with one request pending and no game process of
its own (it dialled an already-running game that the server never
launched), used as a concrete test state. -/
def stOnePendingNoProc : ClientState :=
  { socket := true, state := .connected, pending := ["a"] }

/-- C5 counterexample: a `killGame` on a client with a pending request
but no live game process (the game was already running, so the launcher
was never used and there is no grace sleep to yield across) removes the
entry `"a"` from the table while emitting no effect at all — in
particular it cancels no timer and settles no call — contradicting the
claim that every operation removing a pending entry also cancels its
timer. -/
theorem killGame_no_timer_cancel_counterexample :
    stOnePendingNoProc.pending = ["a"] ∧
    stOnePendingNoProc.gameProcess = false ∧
    (killGame stOnePendingNoProc).1.pending = [] ∧
    (killGame stOnePendingNoProc).2 = [] :=
  ⟨rfl, rfl, rfl, rfl⟩

/-- C5 amended: the matching-response, write-failure and disconnect
removal paths each pair removal of a pending entry with cancelling that
entry's timer (the timeout path's timer has just fired, so it needs no
cancellation), and a kill with a live socket and game process lets the
destroyed socket's close handler cancel every pending timer (and reject
every pending call) during the grace sleep; but a kill with no live
game process clears the pending table synchronously, cancelling no
timer and settling no call — those timers stay armed and later resolve
their calls with timeout failures. -/
theorem removal_paths_cancel_timers (st : ClientState) (j : Json)
    (r : GameResponse) (id : String) (msg : String)
    (hdec : decodeGameResponse j = some r)
    (hmem : r.id ∈ st.pending)
    (hid : id ∈ st.pending) :
    ((handleMessage st (some j)).1.pending = st.pending.erase r.id ∧
     Effect.clearTimer r.id ∈ (handleMessage st (some j)).2) ∧
    ((onWriteError st id msg).1.pending = st.pending.erase id ∧
     Effect.clearTimer id ∈ (onWriteError st id msg).2) ∧
    ((handleDisconnect st).1.pending = [] ∧
     Effect.clearTimer id ∈ (handleDisconnect st).2) ∧
    ((killGame st).1.pending = [] ∧
     ((st.socket && st.gameProcess) = true →
       Effect.clearTimer id ∈ (killGame st).2) ∧
     (st.gameProcess = false → (killGame st).2 = [])) := by
  refine ⟨⟨?_, ?_⟩, ⟨rfl, by simp [onWriteError]⟩, ⟨rfl, ?_⟩, rfl, ?_, ?_⟩
  · simp [handleMessage, hdec, hmem]
  · simp [handleMessage, hdec, hmem]
  · show _ ∈ st.pending.flatMap _
    rw [List.mem_flatMap]
    exact ⟨id, hid, by simp⟩
  · intro hlive
    simp only [killGame, hlive, if_true]
    show _ ∈ st.pending.flatMap _
    rw [List.mem_flatMap]
    exact ⟨id, hid, by simp⟩
  · intro hnp
    simp [killGame, hnp]

theorem removal_paths_cancel_timers_witness :
    decodeGameResponse
        (Json.obj [("id", .str "a"), ("success", .bool true)]) =
      some { id := "a", success := true } ∧
    Effect.clearTimer "a" ∈
      (handleMessage stOnePending
        (some (Json.obj [("id", .str "a"), ("success", .bool true)]))).2 ∧
    Effect.clearTimer "a" ∈ (killGame stOnePending).2 := by
  have h := removal_paths_cancel_timers stOnePending
    (Json.obj [("id", .str "a"), ("success", .bool true)])
    { id := "a", success := true } "a" "EPIPE" rfl
    (by simp [stOnePending]) (by simp [stOnePending])
  exact ⟨rfl, h.1.2, h.2.2.2.2.1 rfl⟩

/-- A capability fetch performed while the client's state is not
`connected` hits the not-connected guard of `sendCommand` and yields
the empty list. -/
theorem fetchCommands_not_connected (st : ClientState)
    (remote : GameResponse) (h : st.state ≠ ConnectionState.connected) :
    fetchCommands st remote = [] := by
  have hb : (st.state == ConnectionState.connected) = false :=
    beq_eq_false_iff_ne.mpr h
  simp [fetchCommands, isConnected, hb]

/-- Inside the retry loop the client's state is still `connecting`, so
whenever the loop reports a successful connection the command list it
fetched and cached is the empty list. -/
theorem connectLoop_commands_empty (remote : GameResponse) (lok : Bool)
    (lmsg pp : String) (port timeoutMs : Nat) :
    ∀ (iters : List IterEnv) (st : ClientState) (le : Option String),
      st.state = ConnectionState.connecting →
      (connectLoop st remote lok lmsg pp port timeoutMs
          iters le).2.1.connected = true →
      (connectLoop st remote lok lmsg pp port timeoutMs
          iters le).2.1.commands = some [] := by
  intro iters
  induction iters with
  | nil =>
    intro st le h hc
    simp [connectLoop] at hc
  | cons it rest ih =>
    intro st le h hc
    by_cases helap : it.elapsedCheck < timeoutMs
    · cases hd : it.dial with
      | ok =>
        have hfc : fetchCommands { st with socket := true } remote = [] :=
          fetchCommands_not_connected _ _ (by simp [h])
        simp [connectLoop, helap, hd, hfc]
      | refused msg =>
        by_cases hgp : st.gameProcess = true
        · simp [connectLoop, helap, hd, hgp] at hc ⊢
          exact ih st (some msg) h hc
        · rw [Bool.not_eq_true] at hgp
          rcases Bool.eq_false_or_eq_true lok with hlk | hlk <;> subst hlk
          · simp [connectLoop, helap, hd, hgp] at hc ⊢
            exact ih { st with gameProcess := true } (some msg)
              (by simp [h]) hc
          · simp [connectLoop, helap, hd, hgp] at hc
      | otherError msg =>
        simp [connectLoop, helap, hd] at hc
    · simp [connectLoop, helap] at hc

/-- C1 (code bug): a `connect` call that actually dials (it is not
already connected, or restarts) can never return a non-empty capability
list.  The source sets `this.state = "connected"` only after
`fetchCommands()` returns, but `fetchCommands` goes through
`sendCommand`, whose guard requires `isConnected()`; the capability
request is therefore answered by the local not-connected failure and the
cached list is always `[]`, even when the target process would answer
`list_commands` with a well-formed command list. -/
theorem connect_capability_list_always_empty (cfg : Config)
    (st : ClientState) (options : ConnectOptions) (env : ConnectEnv)
    (h : isConnected st = false ∨ options.restart = true)
    (hc : (connect cfg st options env).2.1.connected = true) :
    (connect cfg st options env).2.1.commands = some [] := by
  by_cases hp : strOptFalsy (jsOrStr options.projectPath cfg.projectPath) = true
  · simp [connect, hp] at hc
  · rw [Bool.not_eq_true] at hp
    have hkc : isConnected (killGame st).1 = false := rfl
    rcases Bool.eq_false_or_eq_true options.restart with hr | hr
    · simp only [connect, connectAfterPathCheck, hp, hr, hkc,
        Bool.false_eq_true, if_false, if_true] at hc ⊢
      exact connectLoop_commands_empty env.remote env.launchOk
        env.launchErrMsg _ _ _ env.iters _ none rfl hc
    · rcases h with h | h
      · simp only [connect, connectAfterPathCheck, hp, hr, h,
          Bool.false_eq_true, if_false] at hc ⊢
        exact connectLoop_commands_empty env.remote env.launchOk
          env.launchErrMsg _ _ _ env.iters _ none rfl hc
      · rw [h] at hr; cases hr

/-- The `list_commands` reply data the target process of the C1 scenario
would send: two well-formed command descriptors. -/
def twoCommandsData : Json :=
  .obj [("commands", .arr
    [.obj [("name", .str "screenshot"),
           ("description", .str "Capture the game viewport")],
     .obj [("name", .str "get_player_state"),
           ("description", .str "Get player position and health")]])]

/-- The full `list_commands` reply of the C1 scenario. -/
def listCommandsReply : GameResponse :=
  { id := "1", success := true, data := some twoCommandsData }

/-- A configuration with a project path set. -/
def cfgWithPath : Config := { projectPath := some "/game" }

/-- A connect environment whose first dial succeeds and whose target
process would answer `list_commands` with two commands. -/
def okFirstDialEnv : ConnectEnv :=
  { iters := [⟨0, 0, .ok⟩], remote := listCommandsReply }

theorem connect_capability_list_always_empty_witness :
    decodeListCommands twoCommandsData =
      some [{ name := "screenshot",
              description := "Capture the game viewport" },
            { name := "get_player_state",
              description := "Get player position and health" }] ∧
    isConnected { } = false ∧
    (connect cfgWithPath { } { } okFirstDialEnv).2.1.connected = true ∧
    (connect cfgWithPath { } { } okFirstDialEnv).2.1.commands = some [] :=
  ⟨by decide, rfl, by decide,
   connect_capability_list_always_empty cfgWithPath { } { } okFirstDialEnv
     (Or.inl rfl) (by decide)⟩

/-- C3 counterexample: a `connect` call with `restart = true` but no
resolvable project path returns the no-project-path failure without
tearing anything down: the state — still holding a connected socket, a
live game process and a pending request — is returned unchanged and the
trace contains no kill. -/
theorem connect_restart_no_path_counterexample :
    connect { } stOnePending { restart := true } { } =
      (stOnePending,
       { connected := false,
         error := some ("No project path specified. " ++
           "Set GAME_PROJECT_PATH or provide project_path parameter.") },
       []) := rfl

/-- C3 amended: the restart teardown is unconditional only after the
project-path check: when a project path is resolvable, `connect` with
the restart flag behaves exactly like a restart-free connect started
from the killed state, with the kill first in its trace — but when no
project path is resolvable the teardown is skipped entirely. -/
theorem connect_restart_kills_first (cfg : Config) (st : ClientState)
    (options : ConnectOptions) (env : ConnectEnv)
    (hr : options.restart = true)
    (hp : strOptFalsy (jsOrStr options.projectPath cfg.projectPath) = false) :
    (connect cfg st options env).1 =
      (connectAfterPathCheck cfg (killGame st).1
        { options with restart := false } env
        ((jsOrStr options.projectPath cfg.projectPath).getD "")).1 ∧
    (connect cfg st options env).2.1 =
      (connectAfterPathCheck cfg (killGame st).1
        { options with restart := false } env
        ((jsOrStr options.projectPath cfg.projectPath).getD "")).2.1 ∧
    (connect cfg st options env).2.2 =
      .kill :: (connectAfterPathCheck cfg (killGame st).1
        { options with restart := false } env
        ((jsOrStr options.projectPath cfg.projectPath).getD "")).2.2 := by
  have hkc : isConnected (killGame st).1 = false := rfl
  refine ⟨?_, ?_, ?_⟩ <;>
    simp [connect, connectAfterPathCheck, hr, hp, hkc]

theorem connect_restart_kills_first_witness :
    strOptFalsy (jsOrStr (none : Option String) (some "/game")) = false ∧
    (connect cfgWithPath stOnePending { restart := true } { }).2.2 =
      .kill :: (connectAfterPathCheck cfgWithPath (killGame stOnePending).1
        { restart := false } { } "/game").2.2 :=
  ⟨rfl,
   (connect_restart_kills_first cfgWithPath stOnePending
      { restart := true } { } rfl rfl).2.2⟩

/-- A connected client with a cached one-command capability list, used
as a concrete test state. -/
def stCachedConnected : ClientState :=
  { socket := true, state := .connected,
    availableCommands :=
      [{ name := "screenshot", description := "Capture the game viewport" }] }

/-- C4 counterexample: while connected with a cached capability list but
with no resolvable project path (the path had been supplied only as an
option to the earlier successful connect, so the configuration has
none), a restart-free `connect` returns the no-project-path failure
instead of `connected = true` with the cached list. -/
theorem connect_idempotent_counterexample :
    isConnected stCachedConnected = true ∧
    (connect { } stCachedConnected { } { }).2.1 =
      { connected := false,
        error := some ("No project path specified. " ++
          "Set GAME_PROJECT_PATH or provide project_path parameter.") } :=
  ⟨rfl, rfl⟩

/-- C4 amended: while connected, a restart-free `connect` call for which
a project path is resolvable returns immediately with `connected = true`
and the cached capability list, leaves the client state unchanged, and
performs no dial, no launch and no kill (empty trace). -/
theorem connect_idempotent (cfg : Config) (st : ClientState)
    (options : ConnectOptions) (env : ConnectEnv)
    (hc : isConnected st = true) (hr : options.restart = false)
    (hp : strOptFalsy (jsOrStr options.projectPath cfg.projectPath) = false) :
    connect cfg st options env =
      (st, { connected := true, commands := some st.availableCommands },
       []) := by
  simp [connect, connectAfterPathCheck, hp, hr, hc]

theorem connect_idempotent_witness :
    isConnected stCachedConnected = true ∧
    connect cfgWithPath stCachedConnected { } { } =
      (stCachedConnected,
       { connected := true,
         commands := some [{ name := "screenshot",
                             description := "Capture the game viewport" }] },
       []) := by
  refine ⟨rfl, ?_⟩
  rw [connect_idempotent cfgWithPath stCachedConnected { } { } rfl rfl rfl]
  rfl

end GameMcp
